import Mathlib

/-!
Shallow embedding of `src/server.js` (nerfine/caca): an Express reverse
proxy with an in-memory sliding-window rate limiter and three upstream
passthrough endpoints plus a health check.

Timestamps are JS epoch milliseconds, modelled as `Int`.  The process-wide
`requestCounts` map is modelled as a total function from client identifier
to timestamp list, defaulting to `[]` for unseen clients (which is what
`requestCounts.get(ip) || []` yields).  `Date.now()` is made an explicit
`now` argument of the admission check.  The outbound `axios.get` call is
modelled as an oracle argument of each request handler: the handler
records the calls it issues and the oracle supplies the upstream outcome
(a JSON payload on success, an error with optional response status and a
message on failure).
-/

/-- `RATE_LIMIT = 100` requests per window, `src/server.js` line 14. -/
def RATE_LIMIT : Nat := 100

/-- `RATE_WINDOW = 60000` ms (one minute), `src/server.js` line 15. -/
def RATE_WINDOW : Int := 60000

/-- The `requestCounts` map: per-client timestamp lists, with `[]` for
clients that have no entry (`requestCounts.get(ip) || []`). -/
abbrev RState : Type := String → List Int

/-- The map at process start: no client has any entry. -/
def emptyState : RState := fun _ => []

/-- The filter on line 22 of `src/server.js`:
`userRequests.filter(time => now - time < RATE_WINDOW)`. -/
def pruneList (now : Int) (l : List Int) : List Int :=
  l.filter (fun time => now - time < RATE_WINDOW)

/-- `checkRateLimit(ip)` from `src/server.js` lines 17–31, with `Date.now()`
made an explicit `now` argument and the mutation of `requestCounts` made
explicit state passing.  Returns the boolean decision together with the map
after the call; `requestCounts.set(ip, recentRequests)` is reached only on
the admit path (line 29), after the early `return false` on line 25. -/
def checkRateLimit (s : RState) (ip : String) (now : Int) : Bool × RState :=
  let userRequests := s ip
  let recentRequests := pruneList now userRequests
  if RATE_LIMIT ≤ recentRequests.length then
    (false, s)
  else
    (true, Function.update s ip (recentRequests ++ [now]))

/-- Running a sequence of `checkRateLimit` calls (arbitrary client ids and
times) from a given map state, returning the final map. -/
def runCalls (calls : List (String × Int)) (s : RState) : RState :=
  match calls with
  | [] => s
  | c :: rest => runCalls rest (checkRateLimit s c.1 c.2).2

/-- Running a sequence of calls for one fixed client, collecting the list
of admission decisions together with the final map. -/
def runTrace (c : String) (ts : List Int) (s : RState) : List Bool × RState :=
  match ts with
  | [] => ([], s)
  | t :: rest =>
    let r := checkRateLimit s c t
    let k := runTrace c rest r.2
    (r.1 :: k.1, k.2)

/-- Written from the claim text of C1 (and section 4.1 of the spec): take
the stored timestamp sequence for `clientId` (empty if none), discard every
entry older than `now - 60000` ms (i.e. every entry whose timestamp is
strictly earlier than the instant `now - RATE_WINDOW`), and if the
remaining count is ≥ 100 return `false`, otherwise append `now` to the
remaining sequence, store it, and return `true`.  This definition exists
only to be compared with `checkRateLimit`, the embedding of the code. -/
def specCheckRateLimit (s : RState) (clientId : String) (now : Int) : Bool × RState :=
  let stored := s clientId
  let remaining := stored.filter (fun t => ¬ (t < now - RATE_WINDOW))
  if RATE_LIMIT ≤ remaining.length then
    (false, s)
  else
    (true, Function.update s clientId (remaining ++ [now]))

/-- Variant of `specCheckRateLimit` with the window boundary amended to
match the code: an entry whose timestamp is exactly `now - RATE_WINDOW`
(that is, exactly 60000 ms old) is also discarded — only entries strictly
newer than `now - RATE_WINDOW` are kept. -/
def specCheckRateLimitAmended (s : RState) (clientId : String) (now : Int) : Bool × RState :=
  let stored := s clientId
  let remaining := stored.filter (fun t => now - RATE_WINDOW < t)
  if RATE_LIMIT ≤ remaining.length then
    (false, s)
  else
    (true, Function.update s clientId (remaining ++ [now]))

/-- Decimal digit run value: folds `['1','2','3']` to `123`. -/
def digitsToNat (cs : List Char) : Nat :=
  cs.foldl (fun a c => 10 * a + (c.toNat - 48)) 0

/-- Parse the leading run of decimal digits; `none` when there is none
(JS `parseInt` yields `NaN` in that case). -/
def parseDigits (cs : List Char) : Option Nat :=
  let ds := cs.takeWhile Char.isDigit
  if ds.isEmpty then none else some (digitsToNat ds)

/-- Model of the JS builtin `parseInt(str)` as used on lines 86 and 123 of
`src/server.js`: skip leading whitespace, read an optional sign and then
the longest run of decimal digits; `none` models `NaN` (no digits at
all).  The model covers radix-10 inputs; the `0x` auto-radix of the real
builtin is irrelevant to the `limit` values the routes handle. -/
def parseIntJS (str : String) : Option Int :=
  let cs := str.data.dropWhile (fun c => c = ' ' ∨ c = '\t' ∨ c = '\n' ∨ c = '\r')
  match cs with
  | [] => none
  | c :: rest =>
    if c = '-' then (parseDigits rest).map (fun n => -(n : Int))
    else if c = '+' then (parseDigits rest).map (fun n => (n : Int))
    else (parseDigits (c :: rest)).map (fun n => (n : Int))

/-- The JS default idiom `v || d` applied to a number-or-NaN value: `NaN`
(modelled by `none`) and `0` are falsy, every other number is kept. -/
def jsOrDefault (v : Option Int) (d : Int) : Int :=
  match v with
  | none => d
  | some n => if n = 0 then d else n

/-- `Math.min(parseInt(req.query.limit) || 50, 100)` from lines 86 and 123
of `src/server.js`.  An absent parameter (`req.query.limit` undefined)
makes `parseInt` return `NaN`, modelled by `none`. -/
def effectiveLimit (q : Option String) : Int :=
  min (jsOrDefault (Option.bind q parseIntJS) 50) 100

/-- Minimal JSON value model: enough for the bodies `src/server.js`
builds (`res.json` arguments and axios `params` values). -/
inductive JVal : Type
  | jstr : String → JVal
  | jnum : Int → JVal
  | jbool : Bool → JVal
  | jobj : List (String × JVal) → JVal

/-- One outbound `axios.get` call: target URL, the `params` object and the
`headers` object passed in the config. -/
structure OutboundCall : Type where
  url : String
  params : List (String × JVal)
  headers : List (String × String)

/-- An axios failure as the catch blocks see it: `error.response?.status`
(present iff the upstream answered with a non-2xx status) and
`error.message`. -/
structure AxiosError : Type where
  respStatus : Option Nat
  message : String

/-- `error.response?.status || 500`: the `||` treats an absent response
and a zero status as falsy. -/
def jsStatusOr500 (st : Option Nat) : Nat :=
  match st with
  | none => 500
  | some code => if code = 0 then 500 else code

/-- What one request handler produces: the HTTP status and JSON body sent
to the client, the outbound calls issued, and the `requestCounts` map
after the request. -/
structure HandlerResult : Type where
  status : Nat
  body : JVal
  calls : List OutboundCall
  state : RState

/-- The fixed outbound header object used by all three proxy routes. -/
def userAgentHeader : List (String × String) :=
  [("User-Agent", "RobloxGamepassProxy/1.0")]

/-- Body of every 429 response: `{ error: 'Rate limit exceeded' }`. -/
def rateLimitBody : JVal :=
  .jobj [("error", .jstr "Rate limit exceeded")]

/-- Body of the catch-block responses:
`{ error: <category>, message: error.message }`. -/
def upstreamErrorBody (category : String) (e : AxiosError) : JVal :=
  .jobj [("error", .jstr category), ("message", .jstr e.message)]

/-- The shared `try { ... res.json(response.data) } catch (error) { ... }`
shape of the three proxy routes: on upstream success relay the payload
with status 200, on failure answer `error.response?.status || 500` with
the route's fixed category string and `error.message`. -/
def relay (call : OutboundCall) (category : String) (st : RState)
    (r : Except AxiosError JVal) : HandlerResult :=
  match r with
  | .ok data => { status := 200, body := data, calls := [call], state := st }
  | .error e =>
      { status := jsStatusOr500 e.respStatus,
        body := upstreamErrorBody category e,
        calls := [call], state := st }

/-- The health check `app.get('/')`, lines 34–44 of `src/server.js`: a
static JSON descriptor, no rate-limit check, no outbound call (Express
`res.json` defaults the status to 200). -/
def healthBody : JVal :=
  .jobj [("status", .jstr "online"),
    ("message", .jstr "Roblox Gamepass Proxy API"),
    ("endpoints", .jobj
      [("gamepassDetails", .jstr "/api/gamepasses/:id/details"),
       ("userInventory", .jstr "/api/users/:userId/inventory/gamepasses"),
       ("creatorGamepasses", .jstr "/api/users/:userId/gamepasses")])]

/-- Handler of `GET /`, lines 34–44 of `src/server.js`. -/
def healthHandler (s : RState) : HandlerResult :=
  { status := 200, body := healthBody, calls := [], state := s }

/-- Handler of `GET /api/gamepasses/:id/details`, lines 47–74 of
`src/server.js`.  `upstream` is the oracle standing for `axios.get`. -/
def gamepassDetailsHandler (s : RState) (ip : String) (now : Int)
    (gamepassId : String)
    (upstream : OutboundCall → Except AxiosError JVal) : HandlerResult :=
  let rl := checkRateLimit s ip now
  if rl.1 then
    let call : OutboundCall :=
      { url := "https://apis.roblox.com/game-passes/v1/game-passes/"
          ++ gamepassId ++ "/details",
        params := [],
        headers := userAgentHeader }
    relay call "Failed to fetch gamepass details" rl.2 (upstream call)
  else
    { status := 429, body := rateLimitBody, calls := [], state := rl.2 }

/-- Handler of `GET /api/users/:userId/inventory/gamepasses`, lines 77–111
of `src/server.js`.  `page`, `lim` and `cursor` are the raw query
parameters (`none` when absent).  The `page` binding mirrors
`const page = req.query.page || 1;`, which the rest of the handler never
reads. -/
def inventoryHandler (s : RState) (ip : String) (now : Int)
    (userId : String) (page lim cursor : Option String)
    (upstream : OutboundCall → Except AxiosError JVal) : HandlerResult :=
  let rl := checkRateLimit s ip now
  if rl.1 then
    let _page : JVal := match page with
      | some p => .jstr p
      | none => .jnum 1
    let limit := effectiveLimit lim
    let call : OutboundCall :=
      { url := "https://inventory.roblox.com/v1/users/" ++ userId
          ++ "/assets/collectibles",
        params := [("assetType", .jstr "GamePass"),
          ("limit", .jnum limit),
          ("cursor", .jstr (cursor.getD ""))],
        headers := userAgentHeader }
    relay call "Failed to fetch user inventory" rl.2 (upstream call)
  else
    { status := 429, body := rateLimitBody, calls := [], state := rl.2 }

/-- Handler of `GET /api/users/:userId/gamepasses`, lines 114–150 of
`src/server.js`. -/
def creatorGamepassesHandler (s : RState) (ip : String) (now : Int)
    (userId : String) (lim cursor : Option String)
    (upstream : OutboundCall → Except AxiosError JVal) : HandlerResult :=
  let rl := checkRateLimit s ip now
  if rl.1 then
    let cur := cursor.getD ""
    let limit := effectiveLimit lim
    let call : OutboundCall :=
      { url := "https://apis.roblox.com/toolbox-service/v1/creations/get-user-creations",
        params := [("userId", .jstr userId),
          ("assetType", .jnum 34),
          ("limit", .jnum limit),
          ("cursor", .jstr cur),
          ("isArchived", .jbool false)],
        headers := userAgentHeader }
    relay call "Failed to fetch creator gamepasses" rl.2 (upstream call)
  else
    { status := 429, body := rateLimitBody, calls := [], state := rl.2 }

section RateLimiterLemmas

lemma checkRateLimit_reject {s : RState} {ip : String} {now : Int}
    (h : RATE_LIMIT ≤ (pruneList now (s ip)).length) :
    checkRateLimit s ip now = (false, s) := by
  simp [checkRateLimit, h]

lemma checkRateLimit_accept {s : RState} {ip : String} {now : Int}
    (h : (pruneList now (s ip)).length < RATE_LIMIT) :
    checkRateLimit s ip now =
      (true, Function.update s ip (pruneList now (s ip) ++ [now])) := by
  simp [checkRateLimit, Nat.not_le.mpr h]

lemma checkRateLimit_state_of_false {s : RState} {ip : String} {now : Int}
    (h : (checkRateLimit s ip now).1 = false) :
    (checkRateLimit s ip now).2 = s := by
  by_cases hle : RATE_LIMIT ≤ (pruneList now (s ip)).length
  · rw [checkRateLimit_reject hle]
  · rw [checkRateLimit_accept (Nat.not_le.mp hle)] at h ⊢
    simp at h

lemma checkRateLimit_decision {s : RState} {ip : String} {now : Int} :
    (checkRateLimit s ip now).1 =
      decide ((pruneList now (s ip)).length < RATE_LIMIT) := by
  by_cases hle : RATE_LIMIT ≤ (pruneList now (s ip)).length
  · rw [checkRateLimit_reject hle]
    simp [Nat.not_lt.mpr hle]
  · rw [checkRateLimit_accept (Nat.not_le.mp hle)]
    simp [Nat.not_le.mp hle]

lemma length_step {s : RState} {ip : String} {now : Int}
    (h : ∀ c, (s c).length ≤ RATE_LIMIT) :
    ∀ c, (((checkRateLimit s ip now).2) c).length ≤ RATE_LIMIT := by
  intro c
  by_cases hle : RATE_LIMIT ≤ (pruneList now (s ip)).length
  · rw [checkRateLimit_reject hle]
    exact h c
  · rw [checkRateLimit_accept (Nat.not_le.mp hle)]
    by_cases hc : c = ip
    · subst hc
      simp only [Function.update_same, List.length_append, List.length_cons,
        List.length_nil]
      have := Nat.not_le.mp hle
      omega
    · simp only [Function.update_noteq hc]
      exact h c

lemma runCalls_length (calls : List (String × Int)) (s : RState)
    (h : ∀ c, (s c).length ≤ RATE_LIMIT) :
    ∀ c, ((runCalls calls s) c).length ≤ RATE_LIMIT := by
  induction calls generalizing s with
  | nil => exact h
  | cons hd tl ih => exact ih _ (length_step h)

end RateLimiterLemmas

section HandlerLemmas

lemma relay_calls {call : OutboundCall} {cat : String} {st : RState}
    (r : Except AxiosError JVal) : (relay call cat st r).calls = [call] := by
  cases r <;> rfl

lemma relay_state {call : OutboundCall} {cat : String} {st : RState}
    (r : Except AxiosError JVal) : (relay call cat st r).state = st := by
  cases r <;> rfl

lemma relay_error {call : OutboundCall} {cat : String} {st : RState}
    {e : AxiosError} :
    relay call cat st (Except.error e)
      = { status := jsStatusOr500 e.respStatus,
          body := upstreamErrorBody cat e,
          calls := [call], state := st } := rfl

end HandlerLemmas

section TraceLemmas

lemma pruneList_eq_self {now : Int} {l : List Int}
    (h : ∀ t ∈ l, now - t < RATE_WINDOW) : pruneList now l = l := by
  rw [pruneList, List.filter_eq_self]
  intro a ha
  simpa using h a ha

lemma checkRateLimit_full {s : RState} {c : String} {tnext : Int}
    (hfresh : ∀ t ∈ s c, tnext - t < RATE_WINDOW)
    (hlen : RATE_LIMIT ≤ (s c).length) :
    checkRateLimit s c tnext = (false, s) :=
  checkRateLimit_reject (by rw [pruneList_eq_self hfresh]; exact hlen)

lemma checkRateLimit_after {s : RState} {c : String} {u first : Int}
    {rest : List Int} (hsc : s c = first :: rest)
    (hrest : rest.length < RATE_LIMIT)
    (hu : ¬ (u - first < RATE_WINDOW)) :
    (checkRateLimit s c u).1 = true := by
  rw [checkRateLimit_decision]
  have hdrop : pruneList u (s c) = pruneList u rest := by
    rw [hsc, pruneList, List.filter_cons]
    simp [hu, pruneList]
  rw [hdrop]
  simp only [decide_eq_true_eq]
  exact lt_of_le_of_lt (List.length_filter_le _ rest) hrest

lemma runTrace_admits (c : String) (ts : List Int) :
    ∀ (pre : List Int) (s : RState) (lo hi : Int), s c = pre →
      pre.length + ts.length ≤ RATE_LIMIT →
      (∀ p ∈ pre, lo ≤ p) →
      (∀ t ∈ ts, lo ≤ t ∧ t ≤ hi) →
      hi - lo < RATE_WINDOW →
      runTrace c ts s
        = (List.replicate ts.length true, Function.update s c (pre ++ ts)) := by
  induction ts with
  | nil =>
    intro pre s lo hi hs hlen hpre hts hwin
    subst hs
    simp [runTrace, Function.update_eq_self]
  | cons t rest ih =>
    intro pre s lo hi hs hlen hpre hts hwin
    have hfresh : ∀ p ∈ s c, t - p < RATE_WINDOW := by
      intro p hp
      rw [hs] at hp
      have h1 := hpre p hp
      have h2 := (hts t (by simp)).2
      omega
    have hprune : pruneList t (s c) = pre := by
      rw [pruneList_eq_self hfresh, hs]
    have hcnt : (pruneList t (s c)).length < RATE_LIMIT := by
      rw [hprune]
      simp only [List.length_cons] at hlen
      omega
    have hstep := checkRateLimit_accept hcnt
    rw [hprune] at hstep
    have hrec := ih (pre ++ [t]) (Function.update s c (pre ++ [t])) lo hi
      (Function.update_same c (pre ++ [t]) s)
      (by simp only [List.length_append, List.length_cons, List.length_nil] at hlen ⊢; omega)
      (by
        intro p hp
        rcases List.mem_append.mp hp with h | h
        · exact hpre p h
        · simp only [List.mem_singleton] at h
          subst h
          exact (hts p (by simp)).1)
      (fun x hx => hts x (by simp [hx]))
      hwin
    show ((checkRateLimit s c t).1 :: (runTrace c rest (checkRateLimit s c t).2).1,
        (runTrace c rest (checkRateLimit s c t).2).2)
      = (List.replicate (t :: rest).length true, Function.update s c (pre ++ t :: rest))
    rw [hstep]
    simp only [hrec, Function.update_idem, List.length_cons, List.replicate_succ,
      List.append_assoc, List.singleton_append]

end TraceLemmas

/-- C1 counterexample: the claim's window boundary is wrong at equality.
With 100 stored timestamps all equal to `0` (reachable by 100 calls at
time 0) and a call at `now = 60000`, the claimed behavior keeps every
entry (none is strictly older than `now - 60000 = 0`), finds 100 ≥ 100
remaining and returns `false`; the code's filter `now - time < 60000`
discards all of them and returns `true`. -/
theorem C1_boundary_counterexample :
    (specCheckRateLimit
        (Function.update emptyState "c" (List.replicate 100 (0 : Int))) "c" 60000).1
      = false
    ∧ (checkRateLimit
        (Function.update emptyState "c" (List.replicate 100 (0 : Int))) "c" 60000).1
      = true := by
  decide

/-- C1 (amended): `admit(clientId, now)` takes the stored timestamp
sequence for `clientId` (empty if none), discards every entry that is at
least 60000 ms old — i.e. every entry whose timestamp is ≤ `now - 60000`,
not only the strictly older ones — and if the remaining count is ≥ 100
returns `false`, otherwise appends `now` to the remaining sequence,
stores it, and returns `true`.  `checkRateLimit` coincides with this
amended description on every state, client and time. -/
theorem C1_amended_refinement (s : RState) (clientId : String) (now : Int) :
    checkRateLimit s clientId now = specCheckRateLimitAmended s clientId now := by
  have hfilter : ∀ l : List Int,
      pruneList now l = l.filter (fun t => now - RATE_WINDOW < t) := by
    intro l
    rw [pruneList]
    apply List.filter_congr
    intro t _
    simp only [decide_eq_decide]
    omega
  simp only [checkRateLimit, specCheckRateLimitAmended, hfilter]

/-- C2 counterexample: a rejected call does not prune the stored state.
Start from a state whose entry for client `c` is `0 :: replicate 100 50000`
and call at `now = 60000`: the timestamp `0` lies outside the trailing
window (`60000 - 0 ≥ 60000`), the 100 entries at `50000` fill the quota,
so the call is rejected — and the stored sequence afterwards still
contains the stale timestamp `0`, unchanged.  So the claim that every
call, including rejected ones, prunes stale entries from the stored map
is false. -/
theorem C2_reject_counterexample :
    ((checkRateLimit
        (Function.update emptyState "c" ((0 : Int) :: List.replicate 100 50000))
        "c" 60000).1 = false)
    ∧ ((checkRateLimit
        (Function.update emptyState "c" ((0 : Int) :: List.replicate 100 50000))
        "c" 60000).2 "c" = (0 : Int) :: List.replicate 100 50000)
    ∧ ¬ ((60000 : Int) - 0 < RATE_WINDOW) := by
  decide

/-- C2 (amended): only admitted calls mutate the stored map.  A rejected
call returns before `requestCounts.set`, so the stored state is exactly
unchanged (the pruned copy is discarded); an admitted call stores the
pruned sequence with `now` appended. -/
theorem C2_amended_mutation (s : RState) (ip : String) (now : Int) :
    ((checkRateLimit s ip now).1 = false → (checkRateLimit s ip now).2 = s)
    ∧ ((checkRateLimit s ip now).1 = true →
        (checkRateLimit s ip now).2
          = Function.update s ip (pruneList now (s ip) ++ [now])) := by
  constructor
  · exact checkRateLimit_state_of_false
  · intro h
    by_cases hle : RATE_LIMIT ≤ (pruneList now (s ip)).length
    · rw [checkRateLimit_reject hle] at h
      exact absurd h (by simp)
    · rw [checkRateLimit_accept (Nat.not_le.mp hle)]

/-- Witness for `C2_amended_mutation`: at `emptyState` a call is admitted
and stores `[0]`; at a full fresh window the call is rejected and the
state is unchanged. -/
theorem C2_amended_mutation_witness :
    ((checkRateLimit emptyState "c" 0).1 = true
      ∧ (checkRateLimit emptyState "c" 0).2
          = Function.update emptyState "c" (pruneList 0 (emptyState "c") ++ [0]))
    ∧ ((checkRateLimit
          (Function.update emptyState "d" (List.replicate 100 (0 : Int))) "d" 0).1 = false
      ∧ (checkRateLimit
          (Function.update emptyState "d" (List.replicate 100 (0 : Int))) "d" 0).2
          = Function.update emptyState "d" (List.replicate 100 (0 : Int))) :=
  ⟨⟨by decide, (C2_amended_mutation emptyState "c" 0).2 (by decide)⟩,
   ⟨by decide,
    (C2_amended_mutation
      (Function.update emptyState "d" (List.replicate 100 (0 : Int))) "d" 0).1
      (by decide)⟩⟩

/-- C3: starting from the empty map, after any sequence of admission
decisions (arbitrary clients and times), every client's stored sequence
has at most `RATE_LIMIT = 100` entries inside the trailing window ending
at any decision time — indeed at most 100 entries in total. -/
theorem C3_window_quota_invariant (calls : List (String × Int)) (c : String) (t : Int) :
    (pruneList t ((runCalls calls emptyState) c)).length ≤ RATE_LIMIT
    ∧ ((runCalls calls emptyState) c).length ≤ RATE_LIMIT := by
  have h := runCalls_length calls emptyState
    (fun _ => by simp [emptyState]) c
  exact ⟨le_trans (List.length_filter_le _ _) h, h⟩

/-- C4: from the empty map, 100 calls for one client at nondecreasingly
bounded timestamps `first :: rest` that all fit inside one window
(`first ≤ t ≤ tnext` and `tnext - first < 60000`) are all admitted; the
next call at `tnext`, inside the same window, is rejected; and a further
call at any time `u` more than 60000 ms after `first` is admitted
again. -/
theorem C4_quota_exhaustion_and_expiry (c : String) (first tnext u : Int)
    (rest : List Int) (hlen : rest.length = 99)
    (hbounds : ∀ t ∈ first :: rest, first ≤ t ∧ t ≤ tnext)
    (hwin : tnext - first < RATE_WINDOW)
    (hu : first + RATE_WINDOW < u) :
    (runTrace c (first :: rest) emptyState).1 = List.replicate 100 true
    ∧ (runTrace c (first :: rest) emptyState).2 c = first :: rest
    ∧ (checkRateLimit ((runTrace c (first :: rest) emptyState).2) c tnext).1 = false
    ∧ (checkRateLimit
        ((checkRateLimit ((runTrace c (first :: rest) emptyState).2) c tnext).2)
        c u).1 = true := by
  have hrun := runTrace_admits c (first :: rest) [] emptyState first tnext rfl
    (by simp [hlen, RATE_LIMIT])
    (by intro p hp; cases hp)
    hbounds hwin
  have hlen100 : (first :: rest).length = 100 := by simp [hlen]
  have hSc : (runTrace c (first :: rest) emptyState).2 c = first :: rest := by
    rw [hrun]
    simp
  have hfresh : ∀ t ∈ (runTrace c (first :: rest) emptyState).2 c,
      tnext - t < RATE_WINDOW := by
    rw [hSc]
    intro t ht
    have := hbounds t ht
    omega
  have hreject := checkRateLimit_full hfresh (by rw [hSc, hlen100]; decide)
  refine ⟨by rw [hrun, hlen100], hSc, by rw [hreject], ?_⟩
  rw [hreject]
  exact checkRateLimit_after hSc (by rw [hlen]; decide) (by omega)

/-- Witness for `C4_quota_exhaustion_and_expiry`: 100 calls at time 0,
a 101st call at time 0 rejected, a call at time 60001 admitted. -/
theorem C4_quota_witness :
    ((List.replicate 99 (0 : Int)).length = 99
      ∧ (∀ t ∈ (0 : Int) :: List.replicate 99 (0 : Int), (0 : Int) ≤ t ∧ t ≤ 0)
      ∧ (0 : Int) - 0 < RATE_WINDOW
      ∧ (0 : Int) + RATE_WINDOW < 60001)
    ∧ ((runTrace "c" ((0 : Int) :: List.replicate 99 0) emptyState).1
        = List.replicate 100 true
      ∧ (runTrace "c" ((0 : Int) :: List.replicate 99 0) emptyState).2 "c"
        = (0 : Int) :: List.replicate 99 0
      ∧ (checkRateLimit
          ((runTrace "c" ((0 : Int) :: List.replicate 99 0) emptyState).2) "c" 0).1
        = false
      ∧ (checkRateLimit
          ((checkRateLimit
            ((runTrace "c" ((0 : Int) :: List.replicate 99 0) emptyState).2) "c" 0).2)
          "c" 60001).1 = true) :=
  ⟨⟨by decide, by decide, by decide, by decide⟩,
   C4_quota_exhaustion_and_expiry "c" 0 0 60001 (List.replicate 99 0)
     (by decide) (by decide) (by decide) (by decide)⟩

/-- C5: when the rate limiter rejects the requesting client, each of the
three proxy endpoints answers 429 with body `{ error: 'Rate limit
exceeded' }`, issues no outbound call, and leaves the stored map exactly
as it was. -/
theorem C5_rate_limited_response (s : RState) (ip : String) (now : Int)
    (gid uid : String) (page lim cursor : Option String)
    (upstream : OutboundCall → Except AxiosError JVal)
    (hrej : (checkRateLimit s ip now).1 = false) :
    gamepassDetailsHandler s ip now gid upstream
        = { status := 429, body := rateLimitBody, calls := [], state := s }
    ∧ inventoryHandler s ip now uid page lim cursor upstream
        = { status := 429, body := rateLimitBody, calls := [], state := s }
    ∧ creatorGamepassesHandler s ip now uid lim cursor upstream
        = { status := 429, body := rateLimitBody, calls := [], state := s } := by
  have hst := checkRateLimit_state_of_false hrej
  refine ⟨?_, ?_, ?_⟩ <;>
    simp [gamepassDetailsHandler, inventoryHandler, creatorGamepassesHandler,
      hrej, hst]

/-- Witness for `C5_rate_limited_response`: a client with 100 fresh
entries is rejected on all three endpoints and nothing is fetched. -/
theorem C5_rate_limited_witness :
    ((checkRateLimit
        (Function.update emptyState "c" (List.replicate 100 (0 : Int))) "c" 0).1
      = false)
    ∧ gamepassDetailsHandler
        (Function.update emptyState "c" (List.replicate 100 (0 : Int))) "c" 0 "123"
        (fun _ => Except.ok (JVal.jnum 0))
      = { status := 429, body := rateLimitBody, calls := [],
          state := Function.update emptyState "c" (List.replicate 100 (0 : Int)) }
    ∧ inventoryHandler
        (Function.update emptyState "c" (List.replicate 100 (0 : Int))) "c" 0 "999"
        none none none (fun _ => Except.ok (JVal.jnum 0))
      = { status := 429, body := rateLimitBody, calls := [],
          state := Function.update emptyState "c" (List.replicate 100 (0 : Int)) }
    ∧ creatorGamepassesHandler
        (Function.update emptyState "c" (List.replicate 100 (0 : Int))) "c" 0 "999"
        none none (fun _ => Except.ok (JVal.jnum 0))
      = { status := 429, body := rateLimitBody, calls := [],
          state := Function.update emptyState "c" (List.replicate 100 (0 : Int)) } := by
  refine ⟨by decide, ?_, ?_, ?_⟩
  · exact (C5_rate_limited_response
      (Function.update emptyState "c" (List.replicate 100 (0 : Int))) "c" 0
      "123" "999" none none none (fun _ => Except.ok (JVal.jnum 0)) (by decide)).1
  · exact (C5_rate_limited_response
      (Function.update emptyState "c" (List.replicate 100 (0 : Int))) "c" 0
      "123" "999" none none none (fun _ => Except.ok (JVal.jnum 0)) (by decide)).2.1
  · exact (C5_rate_limited_response
      (Function.update emptyState "c" (List.replicate 100 (0 : Int))) "c" 0
      "123" "999" none none none (fun _ => Except.ok (JVal.jnum 0)) (by decide)).2.2

/-- C6: when the outbound call fails, each of the three proxy endpoints
answers with `error.response?.status || 500` and the body
`{ error: <fixed category>, message: error.message }`; the status equals
the upstream's own (nonzero) status code when one is available and is 500
otherwise. -/
theorem C6_upstream_failure_response (s : RState) (ip : String) (now : Int)
    (gid uid : String) (page lim cursor : Option String) (e : AxiosError)
    (hok : (checkRateLimit s ip now).1 = true) :
    (gamepassDetailsHandler s ip now gid (fun _ => Except.error e)).status
        = jsStatusOr500 e.respStatus
    ∧ (gamepassDetailsHandler s ip now gid (fun _ => Except.error e)).body
        = upstreamErrorBody "Failed to fetch gamepass details" e
    ∧ (inventoryHandler s ip now uid page lim cursor (fun _ => Except.error e)).status
        = jsStatusOr500 e.respStatus
    ∧ (inventoryHandler s ip now uid page lim cursor (fun _ => Except.error e)).body
        = upstreamErrorBody "Failed to fetch user inventory" e
    ∧ (creatorGamepassesHandler s ip now uid lim cursor (fun _ => Except.error e)).status
        = jsStatusOr500 e.respStatus
    ∧ (creatorGamepassesHandler s ip now uid lim cursor (fun _ => Except.error e)).body
        = upstreamErrorBody "Failed to fetch creator gamepasses" e
    ∧ (∀ code, e.respStatus = some code → code ≠ 0 → jsStatusOr500 e.respStatus = code)
    ∧ (e.respStatus = none → jsStatusOr500 e.respStatus = 500) := by
  refine ⟨?_, ?_, ?_, ?_, ?_, ?_, ?_, ?_⟩
  · simp [gamepassDetailsHandler, hok, relay_error]
  · simp [gamepassDetailsHandler, hok, relay_error]
  · simp [inventoryHandler, hok, relay_error]
  · simp [inventoryHandler, hok, relay_error]
  · simp [creatorGamepassesHandler, hok, relay_error]
  · simp [creatorGamepassesHandler, hok, relay_error]
  · intro code hc h0
    rw [hc]
    simp [jsStatusOr500, h0]
  · intro hc
    rw [hc]
    rfl

/-- Witness for `C6_upstream_failure_response`: a 404 from the details
endpoint is relayed as 404 with the fixed category and the axios
message. -/
theorem C6_upstream_failure_witness :
    ((checkRateLimit emptyState "c" 0).1 = true
      ∧ ({ respStatus := some 404,
           message := "Request failed with status code 404" } : AxiosError).respStatus
          = some 404)
    ∧ (gamepassDetailsHandler emptyState "c" 0 "123"
        (fun _ => Except.error
          { respStatus := some 404,
            message := "Request failed with status code 404" })).status
        = jsStatusOr500 (some 404)
    ∧ (gamepassDetailsHandler emptyState "c" 0 "123"
        (fun _ => Except.error
          { respStatus := some 404,
            message := "Request failed with status code 404" })).body
        = upstreamErrorBody "Failed to fetch gamepass details"
            { respStatus := some 404,
              message := "Request failed with status code 404" }
    ∧ jsStatusOr500 (some 404) = 404 := by
  refine ⟨⟨by decide, rfl⟩, ?_, ?_, ?_⟩
  · exact (C6_upstream_failure_response emptyState "c" 0 "123" "999"
      none none none
      { respStatus := some 404, message := "Request failed with status code 404" }
      (by decide)).1
  · exact (C6_upstream_failure_response emptyState "c" 0 "123" "999"
      none none none
      { respStatus := some 404, message := "Request failed with status code 404" }
      (by decide)).2.1
  · exact (C6_upstream_failure_response emptyState "c" 0 "123" "999"
      none none none
      { respStatus := some 404, message := "Request failed with status code 404" }
      (by decide)).2.2.2.2.2.2.1 404 rfl (by decide)

/-- C7: the effective limit both paginated endpoints forward upstream is
`Math.min(parseInt(limit) || 50, 100)`: a parsed numeric value above 100
is capped to 100; a non-numeric value (parse = NaN) yields the default
50; an absent parameter yields the default 50; and that effective value
is exactly what appears as the `limit` entry of the outbound call's
params on both endpoints. -/
theorem C7_limit_clamp (s : RState) (ip : String) (now : Int) (uid : String)
    (page lim cursor : Option String)
    (upstream : OutboundCall → Except AxiosError JVal)
    (hok : (checkRateLimit s ip now).1 = true) :
    (∀ str n, parseIntJS str = some n → (100 : Int) < n →
      effectiveLimit (some str) = 100)
    ∧ (∀ str, parseIntJS str = none → effectiveLimit (some str) = 50)
    ∧ effectiveLimit none = 50
    ∧ (inventoryHandler s ip now uid page lim cursor upstream).calls.map
        OutboundCall.params
        = [[("assetType", JVal.jstr "GamePass"),
            ("limit", JVal.jnum (effectiveLimit lim)),
            ("cursor", JVal.jstr (cursor.getD ""))]]
    ∧ (creatorGamepassesHandler s ip now uid lim cursor upstream).calls.map
        OutboundCall.params
        = [[("userId", JVal.jstr uid), ("assetType", JVal.jnum 34),
            ("limit", JVal.jnum (effectiveLimit lim)),
            ("cursor", JVal.jstr (cursor.getD "")),
            ("isArchived", JVal.jbool false)]] := by
  refine ⟨?_, ?_, by decide, ?_, ?_⟩
  · intro str n hp hn
    simp only [effectiveLimit, Option.some_bind, hp, jsOrDefault]
    rw [if_neg (by omega)]
    exact min_eq_right (by omega)
  · intro str hp
    simp [effectiveLimit, hp, jsOrDefault]
  · simp [inventoryHandler, hok, relay_calls]
  · simp [creatorGamepassesHandler, hok, relay_calls]

/-- Witness for `C7_limit_clamp`: `limit=500` is forwarded as 100,
`limit=abc` as 50, an absent limit as 50. -/
theorem C7_limit_clamp_witness :
    ((checkRateLimit emptyState "c" 0).1 = true
      ∧ parseIntJS "500" = some 500
      ∧ (100 : Int) < 500
      ∧ parseIntJS "abc" = none)
    ∧ (effectiveLimit (some "500") = 100
      ∧ effectiveLimit (some "abc") = 50
      ∧ effectiveLimit none = 50) := by
  refine ⟨⟨by decide, by decide, by decide, by decide⟩, ?_, ?_, ?_⟩
  · exact (C7_limit_clamp emptyState "c" 0 "999" none none none
      (fun _ => Except.ok (JVal.jnum 0)) (by decide)).1 "500" 500
      (by decide) (by decide)
  · exact (C7_limit_clamp emptyState "c" 0 "999" none none none
      (fun _ => Except.ok (JVal.jnum 0)) (by decide)).2.1 "abc" (by decide)
  · exact (C7_limit_clamp emptyState "c" 0 "999" none none none
      (fun _ => Except.ok (JVal.jnum 0)) (by decide)).2.2.1

/-- C8: the inventory endpoint's outbound call carries exactly
`assetType=GamePass`, the effective limit and the cursor (default `""`);
the `page` query parameter never appears in the outbound call and has no
effect at all on the handler's result. -/
theorem C8_page_dead_parameter (s : RState) (ip : String) (now : Int)
    (uid : String) (page page' lim cursor : Option String)
    (upstream : OutboundCall → Except AxiosError JVal)
    (hok : (checkRateLimit s ip now).1 = true) :
    inventoryHandler s ip now uid page lim cursor upstream
      = inventoryHandler s ip now uid page' lim cursor upstream
    ∧ (inventoryHandler s ip now uid page lim cursor upstream).calls
        = [{ url := "https://inventory.roblox.com/v1/users/" ++ uid
              ++ "/assets/collectibles",
             params := [("assetType", JVal.jstr "GamePass"),
               ("limit", JVal.jnum (effectiveLimit lim)),
               ("cursor", JVal.jstr (cursor.getD ""))],
             headers := userAgentHeader }] := by
  constructor
  · rfl
  · simp [inventoryHandler, hok, relay_calls]

/-- Witness for `C8_page_dead_parameter`: the scenario of the spec,
`cursor=abc123&limit=10` for user 999, with `page=3` versus no `page`. -/
theorem C8_page_dead_witness :
    ((checkRateLimit emptyState "c" 0).1 = true)
    ∧ inventoryHandler emptyState "c" 0 "999" (some "3") (some "10")
        (some "abc123") (fun _ => Except.ok (JVal.jnum 0))
      = inventoryHandler emptyState "c" 0 "999" none (some "10")
        (some "abc123") (fun _ => Except.ok (JVal.jnum 0))
    ∧ (inventoryHandler emptyState "c" 0 "999" (some "3") (some "10")
        (some "abc123") (fun _ => Except.ok (JVal.jnum 0))).calls
      = [{ url := "https://inventory.roblox.com/v1/users/" ++ "999"
            ++ "/assets/collectibles",
           params := [("assetType", JVal.jstr "GamePass"),
             ("limit", JVal.jnum (effectiveLimit (some "10"))),
             ("cursor", JVal.jstr ((some "abc123").getD ""))],
           headers := userAgentHeader }]
    ∧ effectiveLimit (some "10") = 10 := by
  refine ⟨by decide, ?_, ?_, by decide⟩
  · exact (C8_page_dead_parameter emptyState "c" 0 "999" (some "3") none
      (some "10") (some "abc123") (fun _ => Except.ok (JVal.jnum 0))
      (by decide)).1
  · exact (C8_page_dead_parameter emptyState "c" 0 "999" (some "3") none
      (some "10") (some "abc123") (fun _ => Except.ok (JVal.jnum 0))
      (by decide)).2

/-- C9: the health check returns, for every rate-limiter state, the same
static 200 JSON descriptor (status string, message, and the mapping of
the three route names to their path templates), issues no outbound call,
never consults the rate limiter and leaves its state untouched. -/
theorem C9_health_static (s s' : RState) :
    healthHandler s
      = { status := 200, body := healthBody, calls := [], state := s }
    ∧ (healthHandler s).body = (healthHandler s').body
    ∧ (healthHandler s).status = (healthHandler s').status
    ∧ (healthHandler s).calls = []
    ∧ (healthHandler s).state = s :=
  ⟨rfl, rfl, rfl, rfl, rfl⟩

/-- C10: the clamp only bounds from above.  A parsed negative `limit` is
forwarded as-is (it is truthy, and `Math.min` keeps it), e.g. `-5`;
`limit=0` parses to the falsy `0`, so the default 50 is used. -/
theorem C10_negative_and_zero_limit :
    (∀ str n, parseIntJS str = some n → n < 0 → effectiveLimit (some str) = n)
    ∧ effectiveLimit (some "-5") = -5
    ∧ effectiveLimit (some "0") = 50 := by
  refine ⟨?_, by decide, by decide⟩
  intro str n hp hn
  simp only [effectiveLimit, Option.some_bind, hp, jsOrDefault]
  rw [if_neg (by omega)]
  exact min_eq_left (by omega)

/-- Witness for `C10_negative_and_zero_limit`: `limit=-5` is forwarded
as `-5`. -/
theorem C10_negative_limit_witness :
    (parseIntJS "-5" = some (-5) ∧ (-5 : Int) < 0)
    ∧ effectiveLimit (some "-5") = -5 :=
  ⟨⟨by decide, by decide⟩,
   C10_negative_and_zero_limit.1 "-5" (-5) (by decide) (by decide)⟩
